import Mathlib

/-!
Shallow embedding of the screen-recording subsystem of the GameOverlay
repository (src/src/main.py, class `GameOverlay`, and the equivalent code in
src/Scripts/ubuntu_converted.py).

The recording code consists of five methods:

* `__init__` sets the default recording configuration
  (`record_file_name = "output.avi"`, `record_resolution = pyautogui.size()`,
  `record_fps = 20`, `record_quality = 95`) and `recording = False`;
* `open_record_config` overwrites the four configuration fields with the
  values from the accepted dialog;
* `toggle_recording` flips `self.recording`, updates the button text, and
  dispatches to `start_recording` or `stop_recording`;
* `start_recording` constructs a `cv2.VideoWriter(record_file_name, XVID,
  record_fps, record_resolution)` bound to `self.out` and calls
  `record_frame` directly;
* `record_frame`, when `self.recording` is set, takes a screenshot (at the
  live screen size), converts it (`np.array` / `cvtColor` keep the
  dimensions), writes it with `self.out.write(frame)`, and schedules itself
  once more with `QTimer.singleShot(50, self.record_frame)`;
* `stop_recording` calls `self.out.release()` guarded by `hasattr(self,
  'out')`.

The embedding models the Qt single-threaded event loop explicitly: a system
state `Sys` carries the widget state `Overlay`, the multiset of outstanding
`singleShot` callbacks (`pending`, each entry the delay in milliseconds that
was passed to `singleShot`), the number of capture attempts made so far
(`ticks`), the exceptions that propagated out of a handler (`raised`), and
two instrumentation counters for the external cv2 library: `opens` counts
`cv2.VideoWriter` constructions and `closes` counts effective finalizations
(cv2's `release` is a no-op on an already-released writer, so only a release
of an open writer counts).

The environment `Env` models the external world: the live screen size
returned by `pyautogui.screenshot()` / `pyautogui.size()`, whether the cv2
backend can actually open the output (cv2's constructor never raises — a
failed open merely yields a writer whose `isOpened()` is false), and, per
capture attempt, whether `pyautogui.screenshot()` succeeds or raises.
-/

namespace GameOverlay

/-- Frame and resolution dimensions, (width, height). -/
abbrev Dims := Nat × Nat

/-- Error kinds named by the specification.  In the source, only a failing
`pyautogui.screenshot()` can raise during a session (`CaptureUnavailable`);
`SinkOpenError` exists in the spec but nothing in the code produces it,
because `cv2.VideoWriter`'s constructor does not raise on failure. -/
inductive Err where
  | CaptureUnavailable : Err
  | SinkOpenError : Err
deriving DecidableEq, Repr

/-- Model of a `cv2.VideoWriter` handle: the parameters it was opened with
(`path`, `fps`, `resolution` — exactly the arguments of the constructor call
in `start_recording`; the fourcc is the constant XVID), whether the backend
open succeeded and the handle has not been released (`isOpen`), and the list
of frame dimensions handed to `write`, in call order (`received`). -/
structure Writer where
  path : String
  fps : Nat
  resolution : Dims
  isOpen : Bool
  received : List Dims
deriving DecidableEq, Repr

/-- `out.write(frame)`: the sink receives the frame (appended to `received`
in call order). -/
def Writer.write (fr : Dims) (w : Writer) : Writer :=
  { w with received := w.received ++ [fr] }

/-- `out.release()`: finalizes the handle.  cv2's release on an
already-released writer is a no-op, so release is idempotent. -/
def Writer.release (w : Writer) : Writer :=
  { w with isOpen := false }

/-- The external world: live screen size, whether the cv2 backend can open
the configured output, and whether the k-th `pyautogui.screenshot()` call of
the process succeeds. -/
structure Env where
  screen : Dims
  openOk : Bool
  captureOk : Nat → Bool

/-- The recording-related attributes of the `GameOverlay` widget:
the `recording` flag, the record-button label, the four configuration
fields set in `__init__` and rewritten by `open_record_config`, and the
`self.out` attribute (`none` models the attribute not being set, which is
what `hasattr(self, 'out')` tests). -/
structure Overlay where
  recording : Bool
  record_btn_text : String
  record_file_name : String
  record_resolution : Dims
  record_fps : Nat
  record_quality : Nat
  out : Option Writer
deriving DecidableEq, Repr

/-- The four values returned by the accepted `RecordingConfigDialog`. -/
structure Config where
  file_name : String
  resolution : Dims
  fps : Nat
  quality : Nat
deriving DecidableEq, Repr

/-- `GameOverlay.__init__`: defaults, with `record_resolution` taken from
the live screen size (`pyautogui.size()`). -/
def Overlay.mk0 (env : Env) : Overlay :=
  { recording := false
    record_btn_text := "Start Recording"
    record_file_name := "output.avi"
    record_resolution := env.screen
    record_fps := 20
    record_quality := 95
    out := none }

/-- `GameOverlay.open_record_config` with the dialog accepted: the four
configuration fields are overwritten with the dialog's values. -/
def open_record_config (cfg : Config) (s : Overlay) : Overlay :=
  { s with
    record_file_name := cfg.file_name
    record_resolution := cfg.resolution
    record_fps := cfg.fps
    record_quality := cfg.quality }

/-- Whole-system state: widget state, outstanding `QTimer.singleShot`
callbacks (each entry the delay in ms passed to `singleShot`), number of
capture attempts so far, exceptions that propagated out of a handler, and
the cv2 instrumentation counters. -/
structure Sys where
  ov : Overlay
  pending : List Nat
  ticks : Nat
  raised : List Err
  opens : Nat
  closes : Nat
deriving DecidableEq, Repr

/-- The freshly started process: widget just constructed, no callback
pending, no capture attempted, nothing raised, no writer opened or
released. -/
def Sys.mk0 (env : Env) : Sys :=
  { ov := Overlay.mk0 env
    pending := []
    ticks := 0
    raised := []
    opens := 0
    closes := 0 }

/-- `GameOverlay.record_frame`: if `self.recording`, take a screenshot of
the live screen (the (ticks+1)-th capture attempt; on failure the exception
propagates and nothing else happens), convert it (dimensions unchanged),
hand it to `self.out.write` (always bound by the time `recording` is set via
the toggle path), and schedule one more `record_frame` with
`QTimer.singleShot(50, ...)` — the delay is the literal constant 50 ms.
If not recording, do nothing. -/
def record_frame (env : Env) (sys : Sys) : Sys :=
  if sys.ov.recording then
    let k := sys.ticks + 1
    if env.captureOk k then
      { sys with
        ov := { sys.ov with out := sys.ov.out.map (Writer.write env.screen) }
        ticks := k
        pending := sys.pending ++ [50] }
    else
      { sys with ticks := k, raised := sys.raised ++ [Err.CaptureUnavailable] }
  else sys

/-- The `cv2.VideoWriter(self.record_file_name, fourcc, self.record_fps,
self.record_resolution)` call: constructed from the current configuration,
empty, open exactly when the backend open succeeds (the constructor itself
never raises). -/
def freshWriter (env : Env) (s : Overlay) : Writer :=
  { path := s.record_file_name
    fps := s.record_fps
    resolution := s.record_resolution
    isOpen := env.openOk
    received := [] }

/-- `GameOverlay.start_recording`: bind `self.out` to a new `VideoWriter`
(unconditionally — any previous handle is dropped without release) and call
`record_frame` directly. -/
def start_recording (env : Env) (sys : Sys) : Sys :=
  record_frame env
    { sys with
      ov := { sys.ov with out := some (freshWriter env sys.ov) }
      opens := sys.opens + 1 }

/-- `GameOverlay.stop_recording`: `if hasattr(self, 'out'):
self.out.release()`.  Releasing an already-released writer is a cv2 no-op,
so `closes` counts only effective finalizations. -/
def stop_recording (sys : Sys) : Sys :=
  match sys.ov.out with
  | none => sys
  | some w =>
      { sys with
        ov := { sys.ov with out := some w.release }
        closes := sys.closes + (if w.isOpen then 1 else 0) }

/-- `GameOverlay.toggle_recording`: flip the flag, set the button text, and
start or stop accordingly. -/
def toggle_recording (env : Env) (sys : Sys) : Sys :=
  let r := !sys.ov.recording
  let sys' : Sys :=
    { sys with
      ov := { sys.ov with
              recording := r
              record_btn_text := if r then "Stop Recording" else "Start Recording" } }
  if r then start_recording env sys' else stop_recording sys'

/-- The events the Qt event loop delivers to this widget: a click on the
record button, the firing of one outstanding `singleShot` callback, and an
accepted configuration dialog. -/
inductive Event where
  | toggle : Event
  | timerFire : Event
  | configure : Config → Event

/-- One event-loop dispatch.  `timerFire` consumes one outstanding callback
(no-op if none is outstanding) and runs `record_frame`; handlers run to
completion before the next event (Qt's single-threaded event loop). -/
def stepSys (env : Env) (e : Event) (sys : Sys) : Sys :=
  match e with
  | .toggle => toggle_recording env sys
  | .timerFire =>
      match sys.pending with
      | [] => sys
      | _ :: rest => record_frame env { sys with pending := rest }
  | .configure cfg => { sys with ov := open_record_config cfg sys.ov }

/-- Run a sequence of events from a state. -/
def run (env : Env) (evs : List Event) (sys : Sys) : Sys :=
  match evs with
  | [] => sys
  | e :: es => run env es (stepSys env e sys)

/-- The controller is idle: not recording and any writer handle already
finalized. -/
def Sys.isIdle (sys : Sys) : Bool :=
  !sys.ov.recording &&
    (match sys.ov.out with
     | none => true
     | some w => !w.isOpen)

/-- A healthy environment: 8×6 screen, backend opens fine, every capture
succeeds. -/
def envOK : Env :=
  { screen := (8, 6), openOk := true, captureOk := fun _ => true }

/-- Environment in which the third `pyautogui.screenshot()` call of the
process raises and every other one succeeds. -/
def envFail3 : Env :=
  { screen := (8, 6), openOk := true, captureOk := fun k => k != 3 }

/-- Environment in which the cv2 backend cannot open the configured output
(unwritable path or codec failure); captures succeed. -/
def envNoOpen : Env :=
  { screen := (8, 6), openOk := false, captureOk := fun _ => true }

/-- A session one tick in: start was toggled and the first frame written. -/
def sysRec : Sys := run envOK [Event.toggle] (Sys.mk0 envOK)

/-- A session two ticks in: start toggled, then the scheduled callback
fired once. -/
def sysRec2 : Sys := run envOK [Event.toggle, Event.timerFire] (Sys.mk0 envOK)

/-- The session of the spec's failure scenario: start, two successful
ticks, then the capture of tick 3 raises. -/
def sysFail3 : Sys :=
  run envFail3 [Event.toggle, Event.timerFire, Event.timerFire] (Sys.mk0 envFail3)

/-- The failure-scenario session after the user additionally toggles
recording off. -/
def sysFail3Stopped : Sys :=
  run envFail3 [Event.toggle, Event.timerFire, Event.timerFire, Event.toggle]
    (Sys.mk0 envFail3)

/-- A session started after the frame rate was reconfigured to 10 Hz. -/
def sysFps10 : Sys :=
  run envOK
    [Event.configure { file_name := "output.avi", resolution := (8, 6), fps := 10, quality := 95 },
     Event.toggle]
    (Sys.mk0 envOK)

/-- A session started after the resolution was reconfigured to 6×4 while
the live screen is 8×6. -/
def sysRes64 : Sys :=
  run envOK
    [Event.configure { file_name := "output.avi", resolution := (6, 4), fps := 20, quality := 95 },
     Event.toggle]
    (Sys.mk0 envOK)

/-- The invariant behind claim C8: every frame the sink has received has
the live screen dimensions. -/
def framesInv (env : Env) (sys : Sys) : Prop :=
  ∀ w, sys.ov.out = some w → ∀ fr ∈ w.received, fr = env.screen

/-! Helper lemmas. -/

/-- `record_frame` does nothing while the recording flag is down. -/
theorem record_frame_of_not_recording (env : Env) (sys : Sys)
    (h : sys.ov.recording = false) : record_frame env sys = sys := by
  simp [record_frame, h]

/-- Firing a timer callback never touches the widget state while the
recording flag is down. -/
theorem stepSys_timerFire_ov (env : Env) (sys : Sys)
    (h : sys.ov.recording = false) :
    (stepSys env Event.timerFire sys).ov = sys.ov := by
  unfold stepSys
  cases hp : sys.pending with
  | nil => rfl
  | cons a rest =>
      have := record_frame_of_not_recording env { sys with pending := rest } h
      simp [this]

/-- Running any number of timer firings leaves the widget state untouched
while the recording flag is down. -/
theorem run_timerFire_ov (env : Env) (sys : Sys) (n : Nat)
    (h : sys.ov.recording = false) :
    (run env (List.replicate n Event.timerFire) sys).ov = sys.ov := by
  induction n generalizing sys with
  | zero => rfl
  | succ n ih =>
      rw [List.replicate_succ]
      have hov := stepSys_timerFire_ov env sys h
      have hrec : (stepSys env Event.timerFire sys).ov.recording = false := by
        rw [hov]; exact h
      calc (run env (List.replicate n Event.timerFire)
              (stepSys env Event.timerFire sys)).ov
          = (stepSys env Event.timerFire sys).ov := ih _ hrec
        _ = sys.ov := hov

/-- A timer firing never increases the number of outstanding callbacks:
one is consumed and at most one is re-armed, only after the write. -/
theorem stepSys_timerFire_pending_le (env : Env) (sys : Sys) :
    (stepSys env Event.timerFire sys).pending.length ≤ sys.pending.length := by
  unfold stepSys
  cases hp : sys.pending with
  | nil => simp [hp]
  | cons a rest =>
      unfold record_frame
      cases hr : sys.ov.recording <;>
        cases hc : env.captureOk (sys.ticks + 1) <;> simp [hr, hc]

/-- Running any number of timer firings never increases the number of
outstanding callbacks. -/
theorem run_timerFire_pending_le (env : Env) (sys : Sys) (n : Nat) :
    (run env (List.replicate n Event.timerFire) sys).pending.length ≤
      sys.pending.length := by
  induction n generalizing sys with
  | zero => exact Nat.le_refl _
  | succ n ih =>
      rw [List.replicate_succ]
      exact Nat.le_trans (ih _) (stepSys_timerFire_pending_le env sys)

/-- C1, counterexample: stopping does not cancel the outstanding
`singleShot` callback, so toggling recording off and on again while one
callback is pending leaves an active session with TWO outstanding scheduled
capture callbacks — and both chains keep re-arming, so the queue of two
persists across further timer firings.  This refutes the claim that no
queue of pending ticks ever accumulates for an active session. -/
theorem C1_counterexample :
    (run envOK [Event.toggle, Event.toggle, Event.toggle]
        (Sys.mk0 envOK)).ov.recording = true
    ∧ (run envOK [Event.toggle, Event.toggle, Event.toggle]
        (Sys.mk0 envOK)).pending = [50, 50]
    ∧ (run envOK [Event.toggle, Event.toggle, Event.toggle,
        Event.timerFire, Event.timerFire] (Sys.mk0 envOK)).pending = [50, 50] := by
  decide

/-- C1, amended: each tick re-arms at most one successor and only after its
own write, so a timer firing never increases the number of outstanding
callbacks, and a session started from the freshly constructed widget and
driven only by timer firings keeps at most one outstanding callback.  (The
original claim fails only because a stop request does not cancel the
outstanding callback, so a restart while one is pending creates a second
concurrent self-rescheduling chain.) -/
theorem C1_single_slot (env : Env) (sys : Sys) (n : Nat) :
    (stepSys env Event.timerFire sys).pending.length ≤ sys.pending.length
    ∧ (run env (Event.toggle :: List.replicate n Event.timerFire)
        (Sys.mk0 env)).pending.length ≤ 1 := by
  refine ⟨stepSys_timerFire_pending_le env sys, ?_⟩
  have h1 : (stepSys env Event.toggle (Sys.mk0 env)).pending.length ≤ 1 := by
    cases hc : env.captureOk 1 <;>
      simp [stepSys, toggle_recording, start_recording, record_frame,
        Sys.mk0, Overlay.mk0, freshWriter, hc]
  calc (run env (Event.toggle :: List.replicate n Event.timerFire)
          (Sys.mk0 env)).pending.length
      = (run env (List.replicate n Event.timerFire)
          (stepSys env Event.toggle (Sys.mk0 env))).pending.length := rfl
    _ ≤ (stepSys env Event.toggle (Sys.mk0 env)).pending.length :=
        run_timerFire_pending_le _ _ _
    _ ≤ 1 := h1

/-- C5: `stop_recording` is idempotent — a second call changes nothing,
because cv2's `release` is a no-op on an already-released writer and the
`hasattr` guard is unchanged — and it is a no-op on an idle controller
(recording flag down and any writer already finalized). -/
theorem C5_stop_idempotent (sys : Sys) :
    stop_recording (stop_recording sys) = stop_recording sys
    ∧ (sys.isIdle = true → stop_recording sys = sys) := by
  obtain ⟨⟨rec, btn, fn, res, fps, q, out⟩, pend, t, rs, op, cl⟩ := sys
  constructor
  · cases out with
    | none => rfl
    | some w =>
        obtain ⟨p, f, r, io, rcv⟩ := w
        cases io <;> rfl
  · intro h
    cases out with
    | none => rfl
    | some w =>
        obtain ⟨p, f, r, io, rcv⟩ := w
        cases io with
        | false => rfl
        | true => simp [Sys.isIdle] at h

/-- C5, witness: the stopped failure-scenario session is idle and a further
`stop_recording` leaves it exactly as it is. -/
theorem C5_witness :
    Sys.isIdle sysFail3Stopped = true
    ∧ stop_recording sysFail3Stopped = sysFail3Stopped :=
  ⟨by decide, (C5_stop_idempotent sysFail3Stopped).2 (by decide)⟩

/-- C9: the quality field is stored and read back unchanged by the
configuration dialog handler, and starting a session from two states that
differ only in the stored quality opens the sink identically — quality is
never passed to the encoder. -/
theorem C9_quality_inert (cfg : Config) (s : Overlay) (env : Env) (sys : Sys)
    (q : Nat) :
    (open_record_config cfg s).record_quality = cfg.quality
    ∧ (start_recording env
        { sys with ov := { sys.ov with record_quality := q } }).ov.out
        = (start_recording env sys).ov.out
    ∧ (start_recording env
        { sys with ov := { sys.ov with record_quality := q } }).opens
        = (start_recording env sys).opens := by
  refine ⟨rfl, ?_, ?_⟩ <;>
  · obtain ⟨⟨rec, btn, fn, res, fps, qq, out⟩, pend, t, rs, op, cl⟩ := sys
    cases rec <;> cases hc : env.captureOk (t + 1) <;>
      simp [start_recording, record_frame, freshWriter, hc]

/-- C10: calling `stop_recording` when the `out` attribute was never set is
a safe no-op — the `hasattr(self, 'out')` guard skips the release and the
whole state is unchanged, with nothing raised. -/
theorem C10_stop_without_sink (sys : Sys) (h : sys.ov.out = none) :
    stop_recording sys = sys := by
  obtain ⟨⟨rec, btn, fn, res, fps, q, out⟩, pend, t, rs, op, cl⟩ := sys
  cases out with
  | none => rfl
  | some w => exact Option.noConfusion h

/-- C10, witness: on the freshly constructed widget, where no recording was
ever started, `stop_recording` changes nothing. -/
theorem C10_witness :
    (Sys.mk0 envOK).ov.out = none
    ∧ stop_recording (Sys.mk0 envOK) = Sys.mk0 envOK :=
  ⟨rfl, C10_stop_without_sink (Sys.mk0 envOK) rfl⟩

/-- C2, counterexample: when the capture of tick 3 raises in an otherwise
healthy session, exactly one `CaptureUnavailable` propagates, but the
session is NOT finalized through the stop path: the sink is still open
(no release ever ran, `closes = 0`) and the controller is still in the
Recording state.  This refutes the claim that a failed session is
finalized through the normal stop path and never leaves the file
un-finalized. -/
theorem C2_counterexample :
    sysFail3.raised = [Err.CaptureUnavailable]
    ∧ sysFail3.ov.out.map Writer.isOpen = some true
    ∧ sysFail3.closes = 0
    ∧ sysFail3.ov.recording = true := by
  decide

/-- C2, amended: when the capture of tick 3 raises, the sink has received
exactly the frames of ticks 1 and 2, exactly one `CaptureUnavailable`
propagates, and the loop stops re-arming (no callback outstanding) — but
the controller stays in Recording with the sink un-finalized; the file is
finalized (release runs once) only when stop is explicitly requested
afterwards, and no further error or frame arrives in between. -/
theorem C2_fail_tick3 :
    sysFail3.ov.out = some
        { path := "output.avi", fps := 20, resolution := (8, 6),
          isOpen := true, received := [(8, 6), (8, 6)] }
    ∧ sysFail3.raised = [Err.CaptureUnavailable]
    ∧ sysFail3.pending = []
    ∧ sysFail3.ov.recording = true
    ∧ sysFail3Stopped.ov.out = some
        { path := "output.avi", fps := 20, resolution := (8, 6),
          isOpen := false, received := [(8, 6), (8, 6)] }
    ∧ sysFail3Stopped.closes = 1
    ∧ sysFail3Stopped.raised = [Err.CaptureUnavailable] := by
  decide

/-- C3, counterexample: when the cv2 backend cannot open the output, the
start request neither fails nor leaves the controller idle: nothing is
raised, the recording flag is set, and the session runs against a sink
whose `isOpened()` is false.  This refutes the claim that such a start
fails with `SinkOpenError` and the controller remains Idle. -/
theorem C3_counterexample :
    (stepSys envNoOpen Event.toggle (Sys.mk0 envNoOpen)).ov.recording = true
    ∧ (stepSys envNoOpen Event.toggle (Sys.mk0 envNoOpen)).raised = []
    ∧ (stepSys envNoOpen Event.toggle
        (Sys.mk0 envNoOpen)).ov.out.map Writer.isOpen = some false := by
  decide

/-- C3, amended: for every environment in which the sink cannot be opened,
a start request from the freshly constructed (idle) widget still moves the
controller to Recording, binds an unopened writer, and surfaces no
`SinkOpenError` — `cv2.VideoWriter`'s constructor does not raise and the
code never checks `isOpened()`. -/
theorem C3_open_failure_ignored (env : Env) (h : env.openOk = false) :
    (stepSys env Event.toggle (Sys.mk0 env)).ov.recording = true
    ∧ (stepSys env Event.toggle (Sys.mk0 env)).ov.out.map Writer.isOpen
        = some false
    ∧ Err.SinkOpenError ∉ (stepSys env Event.toggle (Sys.mk0 env)).raised := by
  cases hc : env.captureOk 1 <;>
    simp [stepSys, toggle_recording, start_recording, record_frame,
      Sys.mk0, Overlay.mk0, freshWriter, Writer.write, hc, h]

/-- C3, witness for the amended statement, at the concrete unopenable
environment. -/
theorem C3_witness :
    envNoOpen.openOk = false
    ∧ (stepSys envNoOpen Event.toggle (Sys.mk0 envNoOpen)).ov.recording = true :=
  ⟨rfl, (C3_open_failure_ignored envNoOpen rfl).1⟩

/-- C4, code bug, evaluated at the failing input: with the frame rate
reconfigured to 10 Hz, the sink is opened at 10 fps (and `start_recording`
prints that it records at 10 Hz), yet the next capture is scheduled with
the hard-coded literal `QTimer.singleShot(50, ...)` — 50 ms, the period of
20 Hz, not the configured period 1000/10 = 100 ms.  The capture cadence
does not follow the configured frame rate. -/
theorem C4_fixed_delay :
    sysFps10.ov.record_fps = 10
    ∧ sysFps10.ov.out.map Writer.fps = some 10
    ∧ sysFps10.pending = [50]
    ∧ (50 : Nat) ≠ 1000 / sysFps10.ov.record_fps := by
  decide

/-- C6, counterexample: on a session two ticks in, a direct
`start_recording` call constructs a SECOND `VideoWriter` (`opens` goes from
1 to 2), rebinds `self.out` to it (the bound handle changes), and never
releases the first one (`closes` stays 0) — the already-open sink does not
remain the one and only sink of the session. -/
theorem C6_counterexample :
    sysRec2.ov.recording = true
    ∧ sysRec2.opens = 1
    ∧ (start_recording envOK sysRec2).opens = 2
    ∧ (start_recording envOK sysRec2).ov.out ≠ sysRec2.ov.out
    ∧ (start_recording envOK sysRec2).closes = 0 := by
  decide

/-- C6, amended: a `start_recording` call while already Recording always
constructs exactly one further `VideoWriter` and releases nothing — the
previous handle is abandoned un-finalized.  The button path never does
this: a toggle while Recording flips the flag and runs the stop path, so it
constructs no writer at all. -/
theorem C6_start_while_recording (env : Env) (sys : Sys)
    (h : sys.ov.recording = true) :
    (start_recording env sys).opens = sys.opens + 1
    ∧ (start_recording env sys).closes = sys.closes
    ∧ (toggle_recording env sys).opens = sys.opens := by
  obtain ⟨⟨rec, btn, fn, res, fps, q, out⟩, pend, t, rs, op, cl⟩ := sys
  have hrec : rec = true := h
  subst hrec
  refine ⟨?_, ?_, ?_⟩
  · cases hc : env.captureOk (t + 1) <;>
      simp [start_recording, record_frame, freshWriter, hc]
  · cases hc : env.captureOk (t + 1) <;>
      simp [start_recording, record_frame, freshWriter, hc]
  · cases out <;> simp [toggle_recording, stop_recording]

/-- C6, witness for the amended statement: on the one-tick session,
`start_recording` opens one more writer and the toggle path opens none. -/
theorem C6_witness :
    sysRec.ov.recording = true
    ∧ (start_recording envOK sysRec).opens = sysRec.opens + 1
    ∧ (toggle_recording envOK sysRec).opens = sysRec.opens :=
  ⟨by decide, (C6_start_while_recording envOK sysRec (by decide)).1,
    (C6_start_while_recording envOK sysRec (by decide)).2.2⟩

/-- C7: a stop request (the toggle while Recording) synchronously clears
the recording flag and releases the writer before returning, the released
writer is no longer open, and however many still-pending capture callbacks
fire afterwards, the widget state — in particular the sink and its received
frames — never changes again: a pending callback at stop time writes
nothing. -/
theorem C7_stop_synchronous (env : Env) (sys : Sys)
    (h : sys.ov.recording = true) (n : Nat) :
    (toggle_recording env sys).ov.recording = false
    ∧ (toggle_recording env sys).ov.out = sys.ov.out.map Writer.release
    ∧ (∀ w, (toggle_recording env sys).ov.out = some w → w.isOpen = false)
    ∧ (run env (List.replicate n Event.timerFire)
        (toggle_recording env sys)).ov = (toggle_recording env sys).ov := by
  obtain ⟨⟨rec, btn, fn, res, fps, q, out⟩, pend, t, rs, op, cl⟩ := sys
  have hrec : rec = true := h
  subst hrec
  cases out with
  | none =>
      refine ⟨rfl, rfl, ?_, ?_⟩
      · intro w hw
        exact Option.noConfusion hw
      · exact run_timerFire_ov env _ n rfl
  | some w0 =>
      obtain ⟨p, f, r, io, rcv⟩ := w0
      refine ⟨rfl, rfl, ?_, ?_⟩
      · intro w' hw'
        replace hw' : some (Writer.mk p f r false rcv) = some w' := hw'
        injection hw' with hw'
        subst hw'
        rfl
      · exact run_timerFire_ov env _ n rfl

/-- C7, witness: stopping the one-tick session clears the flag, and two
subsequent timer firings leave the widget state untouched. -/
theorem C7_witness :
    sysRec.ov.recording = true
    ∧ (toggle_recording envOK sysRec).ov.recording = false
    ∧ (run envOK (List.replicate 2 Event.timerFire)
        (toggle_recording envOK sysRec)).ov = (toggle_recording envOK sysRec).ov :=
  ⟨by decide, (C7_stop_synchronous envOK sysRec (by decide) 2).1,
    (C7_stop_synchronous envOK sysRec (by decide) 2).2.2.2⟩

/-- C8, counterexample: with the resolution reconfigured to 6×4 while the
live screen is 8×6, the sink is opened at 6×4 but the first frame handed to
it is the un-resampled 8×6 screenshot — the sink receives a frame
inconsistent with the configuration it was opened with. -/
theorem C8_counterexample :
    sysRes64.ov.out = some
        { path := "output.avi", fps := 20, resolution := (6, 4),
          isOpen := true, received := [(8, 6)] }
    ∧ ((8, 6) : Dims) ≠ ((6, 4) : Dims) := by
  decide

/-- Preservation of the screen-size invariant by one capture step: a step
either writes nothing or appends exactly the live screenshot. -/
theorem framesInv_record_frame (env : Env) (sys : Sys)
    (h : framesInv env sys) : framesInv env (record_frame env sys) := by
  intro w hw
  unfold record_frame at hw
  by_cases hr : sys.ov.recording = true
  · rw [if_pos hr] at hw
    by_cases hc : env.captureOk (sys.ticks + 1) = true
    · rw [if_pos hc] at hw
      replace hw : sys.ov.out.map (Writer.write env.screen) = some w := hw
      cases ho : sys.ov.out with
      | none => rw [ho] at hw; exact Option.noConfusion hw
      | some w0 =>
          rw [ho] at hw
          replace hw : some (Writer.write env.screen w0) = some w := hw
          injection hw with hw
          subst hw
          intro fr hfr
          simp only [Writer.write, List.mem_append, List.mem_singleton] at hfr
          rcases hfr with hfr | hfr
          · exact h w0 ho fr hfr
          · exact hfr
    · rw [if_neg hc] at hw
      replace hw : sys.ov.out = some w := hw
      exact h w hw
  · rw [if_neg hr] at hw
    exact h w hw

/-- Preservation of the screen-size invariant by every event dispatch. -/
theorem framesInv_step (env : Env) (e : Event) (sys : Sys)
    (h : framesInv env sys) : framesInv env (stepSys env e sys) := by
  cases e with
  | configure cfg =>
      intro w hw
      exact h w hw
  | timerFire =>
      obtain ⟨ov, pend, t, rs, op, cl⟩ := sys
      cases pend with
      | nil => exact h
      | cons a rest =>
          apply framesInv_record_frame
          intro w hw
          exact h w hw
  | toggle =>
      obtain ⟨⟨rec, btn, fn, res, fps, q, out⟩, pend, t, rs, op, cl⟩ := sys
      cases rec with
      | true =>
          cases out with
          | none =>
              intro w hw
              exact h w hw
          | some w0 =>
              intro w hw
              replace hw : some w0.release = some w := hw
              injection hw with hw
              subst hw
              intro fr hfr
              exact h w0 rfl fr hfr
      | false =>
          show framesInv env (record_frame env
            { ov := { recording := true, record_btn_text := "Stop Recording",
                      record_file_name := fn, record_resolution := res,
                      record_fps := fps, record_quality := q,
                      out := some { path := fn, fps := fps, resolution := res,
                                    isOpen := env.openOk, received := [] } },
              pending := pend, ticks := t, raised := rs, opens := op + 1,
              closes := cl })
          apply framesInv_record_frame
          intro w hw
          replace hw :
              some (Writer.mk fn fps res env.openOk []) = some w := hw
          injection hw with hw
          subst hw
          intro fr hfr
          simp at hfr

/-- The screen-size invariant holds along every run. -/
theorem framesInv_run (env : Env) (evs : List Event) (sys : Sys)
    (h : framesInv env sys) : framesInv env (run env evs sys) := by
  induction evs generalizing sys with
  | nil => exact h
  | cons e es ih => exact ih _ (framesInv_step env e sys h)

/-- C8, amended: every frame the sink has ever received, in any reachable
state of the widget, has the dimensions of the live screen — the screenshot
is handed to `write` with no resampling or cropping, so it is consistent
with the sink's opening configuration exactly when the configured
resolution equals the screen size (as in the default configuration). -/
theorem C8_frames_at_screen_size (env : Env) (evs : List Event) (w : Writer)
    (fr : Dims) (hw : (run env evs (Sys.mk0 env)).ov.out = some w)
    (hfr : fr ∈ w.received) : fr = env.screen := by
  have h0 : framesInv env (Sys.mk0 env) := by
    intro w hw
    exact Option.noConfusion hw
  exact framesInv_run env evs (Sys.mk0 env) h0 w hw fr hfr

/-- C8, witness: in the default-configuration one-tick session, the frame
the sink received has the screen dimensions. -/
theorem C8_witness :
    (run envOK [Event.toggle] (Sys.mk0 envOK)).ov.out = some
        { path := "output.avi", fps := 20, resolution := (8, 6),
          isOpen := true, received := [(8, 6)] }
    ∧ ((8, 6) : Dims) ∈
        ({ path := "output.avi", fps := 20, resolution := (8, 6),
           isOpen := true, received := [(8, 6)] } : Writer).received
    ∧ ((8, 6) : Dims) = envOK.screen :=
  ⟨by decide, by decide,
    C8_frames_at_screen_size envOK [Event.toggle]
      { path := "output.avi", fps := 20, resolution := (8, 6),
        isOpen := true, received := [(8, 6)] }
      (8, 6) (by decide) (by decide)⟩

end GameOverlay
